import Mathlib

/-!
Verification of the weekly-report assembly core of the
Ausbildungsnachweis generator.

Shallow embedding of the core logic of `main.py`:

* dates are modelled as integers counting days since 1970-01-01, with
  `civil y m d` converting a proleptic-Gregorian calendar date to its day
  number (the standard days-from-civil algorithm) and `weekday` giving
  Python's `date.weekday()` convention (Monday = 0 … Sunday = 6);
* the special-day / holiday dictionaries are association lists with
  first-match lookup; dictionary insertion prepends, so that the Python
  dict's "last write wins" becomes "first match wins" here;
* Python's floor division `//` and floor modulus `%` are `Int./` and
  `Int.%` (`Int.ediv` / `Int.emod`), which agree with floor semantics for
  the positive divisors 365, 7 and 12 used here;
* the random draws of `random.randint` / `random.sample` are modelled by
  quantifying over all possible outcomes: the day classifier takes the
  drawn task sample as an explicit argument, and `PossibleDraw`
  characterises exactly the outcomes the two random primitives can
  produce.
-/

namespace Nachweis

/-- Day number of the proleptic Gregorian date `y-m-d` (days since
1970-01-01), via the standard days-from-civil algorithm.  Models the
`datetime.date` values parsed by `load_config`. -/
def civil (y m d : Int) : Int :=
  let y2 := if m ≤ 2 then y - 1 else y
  let era := (if 0 ≤ y2 then y2 else y2 - 399) / 400
  let yoe := y2 - era * 400
  let mp := (m + 9) % 12
  let doy := (153 * mp + 2) / 5 + d - 1
  let doe := yoe * 365 + yoe / 4 - yoe / 100 + doy
  era * 146097 + doe - 719468

/-- Python's `date.weekday()`: Monday = 0 … Sunday = 6.
1970-01-01 (day 0) was a Thursday, hence the offset 3. -/
def weekday (d : Int) : Int := (d + 3) % 7

/-- One classified day: its content entries and its hour value.
Models one row of the report table built in `generate_weekly_report`
(the joined string `entry` is kept as the list of its entries). -/
structure DayRecord where
  entry : List String
  hours : Nat
  deriving Repr, DecidableEq

/-- Python's `str.lower()`, character by character.  `Char.toLower` only
lowers ASCII letters, which agrees with Python on every comparison made
here: the comparison targets `"urlaub"` / `"krankheit"` are pure ASCII,
and lowercasing never maps a non-ASCII character to an ASCII one. -/
def strLower (s : String) : String := String.mk (s.data.map Char.toLower)

/-- The zero-hour label test of `generate_weekly_report`, line 133:
`label.lower() in ('urlaub', 'krankheit')`. -/
def zeroHourLabel (label : String) : Bool :=
  strLower label = "urlaub" || strLower label = "krankheit"

/-- The day-classification branch of `generate_weekly_report`
(lines 126–140) for a single date.  `special` is the (holiday-merged)
special-day dictionary, `draw` the outcome of the random task sample used
in the final branch (see `PossibleDraw`). -/
def classifyDay (date gstart gend : Int) (special : List (Int × String))
    (defaultHours : Nat) (draw : List String) : DayRecord :=
  if date < gstart ∨ gend < date ∨ 5 ≤ weekday date then
    ⟨[], 0⟩
  else
    match special.lookup date with
    | some label => ⟨[label], if zeroHourLabel label then 0 else defaultHours⟩
    | none => ⟨draw, defaultHours⟩

/-- The possible outcomes of
`random.sample(tasks, random.randint(1, min(3, len(tasks))))`
(`generate_weekly_report`, lines 138–139): a list drawn from distinct
positions of `tasks` (a permutation of a sublist, `List.Subperm`) whose
length lies in `[1, min 3 tasks.length]`. -/
def PossibleDraw (tasks draw : List String) : Prop :=
  1 ≤ draw.length ∧ draw.length ≤ min 3 tasks.length ∧ draw.Subperm tasks

/-- The seven classified days of the week starting at `anchor`
(the loop of `generate_weekly_report`, lines 125–142); `draws i` is the
random sample drawn for day `i`. -/
def mkWeek (anchor gstart gend : Int) (special : List (Int × String))
    (defaultHours : Nat) (draws : Nat → List String) : List DayRecord :=
  (List.range 7).map fun (i : Nat) =>
    classifyDay (anchor + (i : Int)) gstart gend special defaultHours (draws i)

/-- The running total `weekly_total` accumulated day by day in
`generate_weekly_report` (lines 124, 141). -/
def weekTotal (anchor gstart gend : Int) (special : List (Int × String))
    (defaultHours : Nat) (draws : Nat → List String) : Nat :=
  (mkWeek anchor gstart gend special defaultHours draws).foldl
    (fun acc r => acc + r.hours) 0

/-- The holiday merge of `generate_all_reports` (lines 179–181): each
holiday inside `[gstart, gend]` whose date is not already in the
dictionary is inserted; insertion prepends (first match wins on lookup,
matching the Python dict's key update). -/
def mergeHolidays (special : List (Int × String))
    (hols : List (Int × String)) (gstart gend : Int) :
    List (Int × String) :=
  hols.foldl
    (fun acc p =>
      if gstart ≤ p.1 ∧ p.1 ≤ gend ∧ (acc.lookup p.1).isNone then
        (p.1, p.2) :: acc
      else acc)
    special

/-- `start + relativedelta(weekday=MO(-1))` (line 183): the Monday on or
before `d`. -/
def prevMonday (d : Int) : Int := d - weekday d

/-- The `while cur <= end` loop of `generate_all_reports` (lines 184–199),
collecting the week anchors; a fuel argument bounds the iteration count
(`anchors` supplies enough fuel for the whole period). -/
def anchorsFrom (gend : Int) : Nat → Int → List Int
  | 0, _ => []
  | fuel + 1, cur =>
    if cur ≤ gend then cur :: anchorsFrom gend fuel (cur + 7) else []

/-- The ordered sequence of week-start Mondays produced by
`generate_all_reports`: the Monday on or before `gstart`, stepping by 7
days while the anchor is `≤ gend`. -/
def anchors (gstart gend : Int) : List Int :=
  let fm := prevMonday gstart
  anchorsFrom gend ((gend - fm).toNat + 1) fm

/-- The apprenticeship-year computation of `generate_all_reports`
(lines 189–191): `max(1, min(3, (cur - start).days // 365 + 1))`. -/
def yearNum (cur gstart : Int) : Int :=
  max 1 (min 3 ((cur - gstart) / 365 + 1))

/-- One generated weekly report: its Monday anchor, the apprenticeship
year shared by the whole week, the seven day records, and the weekly
total. -/
structure WeekReport where
  anchor : Int
  year : Int
  week : List DayRecord
  total : Nat
  deriving Repr, DecidableEq

/-- The report sequence produced by `generate_all_reports`: holidays are
merged into the special-day dictionary once, then one report per week
anchor; `draws cur i` is the random sample drawn for day `i` of the week
anchored at `cur`. -/
def generateAllReports (gstart gend : Int)
    (special hols : List (Int × String)) (defaultHours : Nat)
    (draws : Int → Nat → List String) : List WeekReport :=
  let sp := mergeHolidays special hols gstart gend
  (anchors gstart gend).map fun cur =>
    ⟨cur, yearNum cur gstart,
      mkWeek cur gstart gend sp defaultHours (draws cur),
      weekTotal cur gstart gend sp defaultHours (draws cur)⟩

/-- The apprenticeship-year formula as the spec words it:
`clamp(floor((date - periodStart).days / 365) + 1, 1, 3)`
(for comparison with the implementation's `yearNum`). -/
def yearNumberSpec (date periodStart : Int) : Int :=
  min (max ((date - periodStart) / 365 + 1) 1) 3

/-! ## Helper lemmas -/

theorem weekday_nonneg (d : Int) : 0 ≤ weekday d := by
  unfold weekday; omega

theorem weekday_lt_seven (d : Int) : weekday d < 7 := by
  unfold weekday; omega

theorem prevMonday_le (d : Int) : prevMonday d ≤ d := by
  unfold prevMonday weekday; omega

theorem prevMonday_gt (d : Int) : d - 7 < prevMonday d := by
  unfold prevMonday weekday; omega

theorem prevMonday_weekday (d : Int) : weekday (prevMonday d) = 0 := by
  unfold prevMonday weekday; omega

theorem prevMonday_of_monday (d : Int) (h : weekday d = 0) :
    prevMonday d = d := by
  unfold prevMonday; omega

theorem weekday_add_seven_mul (a : Int) (k : Nat) :
    weekday (a + 7 * (k : Int)) = weekday a := by
  unfold weekday; omega

theorem weekday_add_of_monday (a : Int) (i : Nat) (h : weekday a = 0)
    (hi : i < 7) : weekday (a + (i : Int)) = (i : Int) := by
  unfold weekday at *; omega

theorem classifyDay_out_of_range (date gstart gend : Int)
    (special : List (Int × String)) (dh : Nat) (draw : List String)
    (h : date < gstart ∨ gend < date) :
    classifyDay date gstart gend special dh draw = ⟨[], 0⟩ := by
  unfold classifyDay
  rcases h with h | h
  · rw [if_pos (Or.inl h)]
  · rw [if_pos (Or.inr (Or.inl h))]

theorem classifyDay_weekend (date gstart gend : Int)
    (special : List (Int × String)) (dh : Nat) (draw : List String)
    (h : 5 ≤ weekday date) :
    classifyDay date gstart gend special dh draw = ⟨[], 0⟩ := by
  unfold classifyDay
  rw [if_pos (Or.inr (Or.inr h))]

theorem classifyDay_special (date gstart gend : Int)
    (special : List (Int × String)) (dh : Nat) (draw : List String)
    (label : String) (h1 : gstart ≤ date) (h2 : date ≤ gend)
    (h3 : weekday date < 5) (hl : special.lookup date = some label) :
    classifyDay date gstart gend special dh draw =
      ⟨[label], if zeroHourLabel label then 0 else dh⟩ := by
  unfold classifyDay
  rw [if_neg (by omega), hl]

theorem classifyDay_workday (date gstart gend : Int)
    (special : List (Int × String)) (dh : Nat) (draw : List String)
    (h1 : gstart ≤ date) (h2 : date ≤ gend) (h3 : weekday date < 5)
    (hl : special.lookup date = none) :
    classifyDay date gstart gend special dh draw = ⟨draw, dh⟩ := by
  unfold classifyDay
  rw [if_neg (by omega), hl]

theorem classifyDay_hours_draw_irrelevant (date gstart gend : Int)
    (special : List (Int × String)) (dh : Nat) (draw draw2 : List String) :
    (classifyDay date gstart gend special dh draw).hours =
      (classifyDay date gstart gend special dh draw2).hours := by
  unfold classifyDay
  split
  · rfl
  · split <;> rfl

theorem classifyDay_hours_zero_or_default (date gstart gend : Int)
    (special : List (Int × String)) (dh : Nat) (draw : List String) :
    (classifyDay date gstart gend special dh draw).hours = 0 ∨
      (classifyDay date gstart gend special dh draw).hours = dh := by
  unfold classifyDay
  split
  · exact Or.inl rfl
  · split
    · split
      · exact Or.inl rfl
      · exact Or.inr rfl
    · exact Or.inr rfl

theorem classifyDay_hours_le (date gstart gend : Int)
    (special : List (Int × String)) (dh : Nat) (draw : List String) :
    (classifyDay date gstart gend special dh draw).hours ≤ dh := by
  rcases classifyDay_hours_zero_or_default date gstart gend special dh draw
    with h | h <;> omega

theorem mergeHolidays_cons (special : List (Int × String))
    (p : Int × String) (rest : List (Int × String)) (gstart gend : Int) :
    mergeHolidays special (p :: rest) gstart gend =
      mergeHolidays
        (if gstart ≤ p.1 ∧ p.1 ≤ gend ∧ (special.lookup p.1).isNone then
          (p.1, p.2) :: special
        else special) rest gstart gend := by
  unfold mergeHolidays
  rw [List.foldl_cons]

theorem lookup_mergeHolidays_of_some (special hols : List (Int × String))
    (gstart gend d : Int) (l : String) (h : special.lookup d = some l) :
    (mergeHolidays special hols gstart gend).lookup d = some l := by
  induction hols generalizing special with
  | nil => exact h
  | cons p rest ih =>
    rw [mergeHolidays_cons]
    apply ih
    split
    · rename_i hc
      rw [List.lookup_cons]
      have hne : (d == p.1) = false := by
        rw [beq_eq_false_iff_ne]
        intro hd
        rw [← hd, h] at hc
        simp at hc
      rw [hne]
      exact h
    · exact h

theorem lookup_mergeHolidays_of_none (special hols : List (Int × String))
    (gstart gend d : Int) (h : special.lookup d = none)
    (h1 : gstart ≤ d) (h2 : d ≤ gend) :
    (mergeHolidays special hols gstart gend).lookup d = hols.lookup d := by
  induction hols generalizing special with
  | nil => exact h
  | cons p rest ih =>
    rw [mergeHolidays_cons, List.lookup_cons]
    by_cases hd : d = p.1
    · have hc : gstart ≤ p.1 ∧ p.1 ≤ gend ∧ (special.lookup p.1).isNone := by
        refine ⟨by omega, by omega, ?_⟩
        rw [← hd, h]
        rfl
      rw [if_pos hc]
      have hbeq : (d == p.1) = true := beq_iff_eq.2 hd
      rw [hbeq]
      apply lookup_mergeHolidays_of_some
      rw [List.lookup_cons, hbeq]
    · have hbeq : (d == p.1) = false := beq_eq_false_iff_ne.2 hd
      rw [hbeq]
      split
      · apply ih
        rw [List.lookup_cons, hbeq]
        exact h
      · exact ih special h

theorem anchorsFrom_mem (gend : Int) (fuel : Nat) (cur a : Int)
    (hf : gend - cur < 7 * fuel) :
    a ∈ anchorsFrom gend fuel cur ↔
      ∃ k : Nat, a = cur + 7 * (k : Int) ∧ a ≤ gend := by
  induction fuel generalizing cur with
  | zero =>
    simp only [anchorsFrom, List.not_mem_nil, false_iff]
    rintro ⟨k, rfl, hk⟩
    omega
  | succ n ih =>
    rw [anchorsFrom]
    split
    · rename_i hc
      simp only [List.mem_cons]
      rw [ih (cur + 7) (by omega)]
      constructor
      · rintro (rfl | ⟨k, rfl, hk⟩)
        · exact ⟨0, by omega, hc⟩
        · exact ⟨k + 1, by push_cast; ring, hk⟩
      · rintro ⟨k, rfl, hk⟩
        cases k with
        | zero => left; omega
        | succ m => right; exact ⟨m, by push_cast; ring, hk⟩
    · rename_i hc
      simp only [List.not_mem_nil, false_iff]
      rintro ⟨k, rfl, hk⟩
      omega

theorem anchors_mem (gstart gend a : Int) :
    a ∈ anchors gstart gend ↔
      ∃ k : Nat, a = prevMonday gstart + 7 * (k : Int) ∧ a ≤ gend := by
  apply anchorsFrom_mem
  omega

theorem anchorsFrom_head (gend : Int) (fuel : Nat) (cur : Int) :
    anchorsFrom gend fuel cur = [] ∨
      (anchorsFrom gend fuel cur).head? = some cur := by
  cases fuel with
  | zero => exact Or.inl rfl
  | succ n =>
    rw [anchorsFrom]
    split
    · exact Or.inr rfl
    · exact Or.inl rfl

theorem anchorsFrom_chain (gend : Int) (fuel : Nat) (cur : Int) :
    List.Chain' (fun a b => b = a + 7) (anchorsFrom gend fuel cur) := by
  induction fuel generalizing cur with
  | zero => exact List.chain'_nil
  | succ n ih =>
    rw [anchorsFrom]
    split
    · rw [List.chain'_cons']
      refine ⟨?_, ih _⟩
      intro y hy
      rcases anchorsFrom_head gend n (cur + 7) with h | h
      · rw [h] at hy
        simp at hy
      · rw [h] at hy
        simp at hy
        omega
    · exact List.chain'_nil

theorem anchors_chain (gstart gend : Int) :
    List.Chain' (fun a b => b = a + 7) (anchors gstart gend) :=
  anchorsFrom_chain _ _ _

theorem anchors_weekday (gstart gend a : Int) (h : a ∈ anchors gstart gend) :
    weekday a = 0 := by
  rw [anchors_mem] at h
  obtain ⟨k, rfl, _⟩ := h
  rw [weekday_add_seven_mul, prevMonday_weekday]

theorem weekTotal_eq_sum (anchor gstart gend : Int)
    (sp : List (Int × String)) (dh : Nat) (draws : Nat → List String) :
    weekTotal anchor gstart gend sp dh draws =
      ((mkWeek anchor gstart gend sp dh draws).map DayRecord.hours).sum := by
  rw [weekTotal, List.sum_eq_foldl, List.foldl_map]

theorem weekTotal_draw_irrelevant (anchor gstart gend : Int)
    (sp : List (Int × String)) (dh : Nat) (draws draws2 : Nat → List String) :
    weekTotal anchor gstart gend sp dh draws =
      weekTotal anchor gstart gend sp dh draws2 := by
  rw [weekTotal_eq_sum, weekTotal_eq_sum]
  unfold mkWeek
  rw [List.map_map, List.map_map]
  congr 1
  apply List.map_congr_left
  intro i _
  exact classifyDay_hours_draw_irrelevant _ _ _ _ _ _ _

theorem mem_mkWeek (anchor gstart gend : Int) (sp : List (Int × String))
    (dh : Nat) (draws : Nat → List String) (r : DayRecord)
    (h : r ∈ mkWeek anchor gstart gend sp dh draws) :
    ∃ i : Nat, i < 7 ∧
      r = classifyDay (anchor + (i : Int)) gstart gend sp dh (draws i) := by
  unfold mkWeek at h
  rw [List.mem_map] at h
  obtain ⟨i, hi, rfl⟩ := h
  rw [List.mem_range] at hi
  exact ⟨i, hi, rfl⟩

theorem classifyDay_hours_weekend_zero (anchor gstart gend : Int)
    (sp : List (Int × String)) (dh : Nat) (draw : List String) (i : Nat)
    (hm : weekday anchor = 0) (h5 : 5 ≤ i) (h7 : i < 7) :
    (classifyDay (anchor + (i : Int)) gstart gend sp dh draw).hours = 0 := by
  rw [classifyDay_weekend]
  rw [weekday_add_of_monday anchor i hm h7]
  omega

theorem weekTotal_le (anchor gstart gend : Int) (sp : List (Int × String))
    (dh : Nat) (draws : Nat → List String) (hm : weekday anchor = 0) :
    weekTotal anchor gstart gend sp dh draws ≤ 5 * dh := by
  rw [weekTotal_eq_sum]
  unfold mkWeek
  rw [List.map_map]
  have h7 : List.range 7 = [0, 1, 2, 3, 4, 5, 6] := rfl
  rw [h7]
  simp only [List.map_cons, List.map_nil, List.sum_cons, List.sum_nil,
    Function.comp_apply]
  have h5 := classifyDay_hours_weekend_zero anchor gstart gend sp dh
    (draws 5) 5 hm (by omega) (by omega)
  have h6 := classifyDay_hours_weekend_zero anchor gstart gend sp dh
    (draws 6) 6 hm (by omega) (by omega)
  have b0 := classifyDay_hours_le (anchor + ((0 : Nat) : Int)) gstart gend sp dh (draws 0)
  have b1 := classifyDay_hours_le (anchor + ((1 : Nat) : Int)) gstart gend sp dh (draws 1)
  have b2 := classifyDay_hours_le (anchor + ((2 : Nat) : Int)) gstart gend sp dh (draws 2)
  have b3 := classifyDay_hours_le (anchor + ((3 : Nat) : Int)) gstart gend sp dh (draws 3)
  have b4 := classifyDay_hours_le (anchor + ((4 : Nat) : Int)) gstart gend sp dh (draws 4)
  omega

theorem zeroHourLabel_iff (label : String) :
    zeroHourLabel label = true ↔
      (strLower label = "urlaub" ∨ strLower label = "krankheit") := by
  unfold zeroHourLabel
  simp only [Bool.or_eq_true, decide_eq_true_eq]

/-! ## Claims -/

/-- C1: For every date within the reporting period whose weekday index is 5 or
6 (Saturday or Sunday), the day classifier produces hours = 0 and empty
content, even when that date is present in the special-day index or the
holiday index (the index argument is arbitrary, so it covers the
holiday-merged dictionary): the weekend check is applied before the
special-day lookup. -/
theorem C1_weekend_wins (date gstart gend : Int)
    (special : List (Int × String)) (dh : Nat) (draw : List String)
    (h1 : gstart ≤ date) (h2 : date ≤ gend) (h3 : 5 ≤ weekday date) :
    classifyDay date gstart gend special dh draw = ⟨[], 0⟩ :=
  classifyDay_weekend date gstart gend special dh draw h3

/-- C1 witness: Saturday 2025-01-04 inside the period 2025-01-01 … 2025-01-07,
present in the special-day index with label "Urlaub", is still classified
as an empty 0-hour day. -/
theorem C1_weekend_wins_witness :
    List.lookup (civil 2025 1 4) [(civil 2025 1 4, "Urlaub")] = some "Urlaub" ∧
    classifyDay (civil 2025 1 4) (civil 2025 1 1) (civil 2025 1 7)
      [(civil 2025 1 4, "Urlaub")] 8 [] = ⟨[], 0⟩ :=
  ⟨by decide,
    C1_weekend_wins (civil 2025 1 4) (civil 2025 1 1) (civil 2025 1 7)
      [(civil 2025 1 4, "Urlaub")] 8 [] (by decide) (by decide) (by decide)⟩

/-- C2: For every date strictly before the period start or strictly after the
period end, the day classifier produces hours = 0 and empty content,
regardless of the date's weekday and regardless of any entry for that date in
the special-day or holiday index. -/
theorem C2_out_of_range_zero (date gstart gend : Int)
    (special : List (Int × String)) (dh : Nat) (draw : List String)
    (h : date < gstart ∨ gend < date) :
    classifyDay date gstart gend special dh draw = ⟨[], 0⟩ :=
  classifyDay_out_of_range date gstart gend special dh draw h

/-- C2 witness: Monday 2024-12-30 lies before the period start 2025-01-01 and
is in the special-day index with label "Schule", yet is an empty 0-hour day. -/
theorem C2_out_of_range_zero_witness :
    weekday (civil 2024 12 30) = 0 ∧
    List.lookup (civil 2024 12 30) [(civil 2024 12 30, "Schule")] =
      some "Schule" ∧
    classifyDay (civil 2024 12 30) (civil 2025 1 1) (civil 2025 1 7)
      [(civil 2024 12 30, "Schule")] 8 [] = ⟨[], 0⟩ :=
  ⟨by decide, by decide,
    C2_out_of_range_zero (civil 2024 12 30) (civil 2025 1 1) (civil 2025 1 7)
      [(civil 2024 12 30, "Schule")] 8 [] (Or.inl (by decide))⟩

/-- C3: For every in-range weekday present in the special-day index, the day's
content is exactly the stored label; with a positive default, hours = 0 iff
the lowercased label is "urlaub" or "krankheit", and any other label (such as
"Schule") yields hours = defaultHours.  The classifier is applied to the
holiday-merged dictionary, so the conclusion holds even when the date is also
a public holiday: the user-declared label wins because the merge never
overwrites an existing special-day entry. -/
theorem C3_special_label_policy (date gstart gend : Int)
    (special hols : List (Int × String)) (dh : Nat) (draw : List String)
    (label : String) (h1 : gstart ≤ date) (h2 : date ≤ gend)
    (h3 : weekday date < 5) (hdh : 0 < dh)
    (hl : List.lookup date special = some label) :
    (classifyDay date gstart gend (mergeHolidays special hols gstart gend)
        dh draw).entry = [label] ∧
    ((classifyDay date gstart gend (mergeHolidays special hols gstart gend)
        dh draw).hours = 0 ↔
      (strLower label = "urlaub" ∨ strLower label = "krankheit")) ∧
    (¬(strLower label = "urlaub" ∨ strLower label = "krankheit") →
      (classifyDay date gstart gend (mergeHolidays special hols gstart gend)
        dh draw).hours = dh) := by
  have hm := lookup_mergeHolidays_of_some special hols gstart gend date label hl
  rw [classifyDay_special date gstart gend _ dh draw label h1 h2 h3 hm]
  by_cases hz : strLower label = "urlaub" ∨ strLower label = "krankheit"
  · rw [if_pos ((zeroHourLabel_iff label).2 hz)]
    exact ⟨rfl, by simp [hz], fun h => absurd hz h⟩
  · rw [if_neg (fun hb => hz ((zeroHourLabel_iff label).1 hb))]
    refine ⟨rfl, ?_, fun _ => rfl⟩
    dsimp only
    constructor
    · intro h
      omega
    · intro h
      exact absurd h hz

/-- C3 witness: Friday 2025-01-03, user-labelled "Schule" and simultaneously a
(made-up) public holiday, still shows content ["Schule"] with 8 hours; the
zero-hour test on "Schule" is false. -/
theorem C3_special_label_policy_witness :
    (classifyDay (civil 2025 1 3) (civil 2025 1 1) (civil 2025 1 7)
        (mergeHolidays [(civil 2025 1 3, "Schule")]
          [(civil 2025 1 3, "Feiertag")] (civil 2025 1 1) (civil 2025 1 7))
        8 []).entry = ["Schule"] ∧
    ((classifyDay (civil 2025 1 3) (civil 2025 1 1) (civil 2025 1 7)
        (mergeHolidays [(civil 2025 1 3, "Schule")]
          [(civil 2025 1 3, "Feiertag")] (civil 2025 1 1) (civil 2025 1 7))
        8 []).hours = 0 ↔
      (strLower "Schule" = "urlaub" ∨ strLower "Schule" = "krankheit")) :=
  ⟨(C3_special_label_policy (civil 2025 1 3) (civil 2025 1 1) (civil 2025 1 7)
      [(civil 2025 1 3, "Schule")] [(civil 2025 1 3, "Feiertag")] 8 []
      "Schule" (by decide) (by decide) (by decide) (by decide) (by decide)).1,
    (C3_special_label_policy (civil 2025 1 3) (civil 2025 1 1) (civil 2025 1 7)
      [(civil 2025 1 3, "Schule")] [(civil 2025 1 3, "Feiertag")] 8 []
      "Schule" (by decide) (by decide) (by decide) (by decide) (by decide)).2.1⟩

/-- C4 counterexample: the claim says holiday hours never depend on the
holiday's name, but the code funnels holidays through the same zero-hour
label test as special days.  A holiday named "Urlaub" on the in-range
Wednesday 2025-01-01 (absent from the user special-day index) is classified
with 0 hours instead of defaultHours = 8. -/
theorem C4_holiday_name_counterexample :
    List.lookup (civil 2025 1 1) ([] : List (Int × String)) = none ∧
    weekday (civil 2025 1 1) = 2 ∧
    (classifyDay (civil 2025 1 1) (civil 2025 1 1) (civil 2025 1 7)
        (mergeHolidays [] [(civil 2025 1 1, "Urlaub")]
          (civil 2025 1 1) (civil 2025 1 7)) 8 []).entry = ["Urlaub"] ∧
    (classifyDay (civil 2025 1 1) (civil 2025 1 1) (civil 2025 1 7)
        (mergeHolidays [] [(civil 2025 1 1, "Urlaub")]
          (civil 2025 1 1) (civil 2025 1 7)) 8 []).hours = 0 ∧
    (classifyDay (civil 2025 1 1) (civil 2025 1 1) (civil 2025 1 7)
        (mergeHolidays [] [(civil 2025 1 1, "Urlaub")]
          (civil 2025 1 1) (civil 2025 1 7)) 8 []).hours ≠ 8 := by
  refine ⟨by decide, by decide, by decide, by decide, by decide⟩

/-- C4 (amended): for every in-range weekday that is a public holiday and not
in the user special-day index, the content is the holiday's name; hours =
defaultHours provided the lowercased holiday name is not "urlaub" or
"krankheit" (true of every real German holiday name), and 0 otherwise — the
hour value does pass through the zero-hour label test. -/
theorem C4_holiday_hours (date gstart gend : Int)
    (special hols : List (Int × String)) (dh : Nat) (draw : List String)
    (name : String) (h1 : gstart ≤ date) (h2 : date ≤ gend)
    (h3 : weekday date < 5) (hs : List.lookup date special = none)
    (hh : List.lookup date hols = some name) :
    (classifyDay date gstart gend (mergeHolidays special hols gstart gend)
        dh draw).entry = [name] ∧
    (¬(strLower name = "urlaub" ∨ strLower name = "krankheit") →
      (classifyDay date gstart gend (mergeHolidays special hols gstart gend)
        dh draw).hours = dh) ∧
    ((strLower name = "urlaub" ∨ strLower name = "krankheit") →
      (classifyDay date gstart gend (mergeHolidays special hols gstart gend)
        dh draw).hours = 0) := by
  have hm : List.lookup date (mergeHolidays special hols gstart gend) =
      some name := by
    rw [lookup_mergeHolidays_of_none special hols gstart gend date hs h1 h2, hh]
  rw [classifyDay_special date gstart gend _ dh draw name h1 h2 h3 hm]
  by_cases hz : strLower name = "urlaub" ∨ strLower name = "krankheit"
  · rw [if_pos ((zeroHourLabel_iff name).2 hz)]
    exact ⟨rfl, fun h => absurd hz h, fun _ => rfl⟩
  · rw [if_neg (fun hb => hz ((zeroHourLabel_iff name).1 hb))]
    exact ⟨rfl, fun _ => rfl, fun h => absurd h hz⟩

/-- C4 witness: the real holiday name "Neujahr" on Wednesday 2025-01-01 gives
content ["Neujahr"] and 8 hours. -/
theorem C4_holiday_hours_witness :
    (classifyDay (civil 2025 1 1) (civil 2025 1 1) (civil 2025 1 7)
        (mergeHolidays [] [(civil 2025 1 1, "Neujahr")]
          (civil 2025 1 1) (civil 2025 1 7)) 8 []).entry = ["Neujahr"] ∧
    (classifyDay (civil 2025 1 1) (civil 2025 1 1) (civil 2025 1 7)
        (mergeHolidays [] [(civil 2025 1 1, "Neujahr")]
          (civil 2025 1 1) (civil 2025 1 7)) 8 []).hours = 8 :=
  ⟨(C4_holiday_hours (civil 2025 1 1) (civil 2025 1 1) (civil 2025 1 7)
      [] [(civil 2025 1 1, "Neujahr")] 8 [] "Neujahr"
      (by decide) (by decide) (by decide) (by decide) (by decide)).1,
    (C4_holiday_hours (civil 2025 1 1) (civil 2025 1 1) (civil 2025 1 7)
      [] [(civil 2025 1 1, "Neujahr")] 8 [] "Neujahr"
      (by decide) (by decide) (by decide) (by decide) (by decide)).2.1
      (by decide)⟩

/-- C5: the week-anchor sequence consists of the Monday on or before the
period start (equal to the start when the start is a Monday) plus successive
7-day increments, containing exactly the anchors ≤ the period end; for
start = end = 2025-01-01 (a Wednesday) it is exactly [2024-12-30]. -/
theorem C5_week_anchors (gstart gend : Int) :
    (∀ a : Int, a ∈ anchors gstart gend ↔
        ∃ k : Nat, a = prevMonday gstart + 7 * (k : Int) ∧ a ≤ gend) ∧
    weekday (prevMonday gstart) = 0 ∧
    prevMonday gstart ≤ gstart ∧
    gstart - 7 < prevMonday gstart ∧
    (weekday gstart = 0 → prevMonday gstart = gstart) ∧
    List.Chain' (fun a b => b = a + 7) (anchors gstart gend) ∧
    anchors (civil 2025 1 1) (civil 2025 1 1) = [civil 2024 12 30] ∧
    weekday (civil 2025 1 1) = 2 :=
  ⟨fun a => anchors_mem gstart gend a, prevMonday_weekday gstart,
    prevMonday_le gstart, prevMonday_gt gstart,
    fun h => prevMonday_of_monday gstart h, anchors_chain gstart gend,
    by decide, by decide⟩

/-- C5 witness: instantiated at the Monday 2025-01-06, the inner hypotheses
are dischargeable: the Monday anchor equals the start itself, and the
single-anchor example holds. -/
theorem C5_week_anchors_witness :
    prevMonday (civil 2025 1 6) = civil 2025 1 6 ∧
    anchors (civil 2025 1 1) (civil 2025 1 1) = [civil 2024 12 30] :=
  ⟨(C5_week_anchors (civil 2025 1 6) (civil 2025 1 6)).2.2.2.2.1 (by decide),
    (C5_week_anchors (civil 2025 1 1) (civil 2025 1 1)).2.2.2.2.2.2.1⟩

/-- C6: every generated week carries a single apprenticeship-year value,
computed from the week's Monday anchor by the spec's clamp formula
clamp(floor((anchor - start)/365) + 1, 1, 3); the formula gives 1 at the
start (and at the preceding Monday, where the day delta is negative), 2 at
start + 400 days, and 3 at start + 1000 days, with the result always clamped
to [1, 3] (in particular 3, not 4, at start + 1095 days). -/
theorem C6_year_clamp (gstart gend : Int) (special hols : List (Int × String))
    (dh : Nat) (draws : Int → Nat → List String) :
    (∀ r ∈ generateAllReports gstart gend special hols dh draws,
        r.year = yearNumberSpec r.anchor gstart) ∧
    yearNumberSpec gstart gstart = 1 ∧
    yearNumberSpec (prevMonday gstart) gstart = 1 ∧
    yearNumberSpec (gstart + 400) gstart = 2 ∧
    yearNumberSpec (gstart + 1000) gstart = 3 ∧
    yearNumberSpec (gstart + 1095) gstart = 3 ∧
    (∀ c : Int, 1 ≤ yearNumberSpec c gstart ∧ yearNumberSpec c gstart ≤ 3) := by
  refine ⟨?_, ?_, ?_, ?_, ?_, ?_, ?_⟩
  · intro r hr
    simp only [generateAllReports, List.mem_map] at hr
    obtain ⟨cur, _, rfl⟩ := hr
    show yearNum cur gstart = yearNumberSpec cur gstart
    unfold yearNum yearNumberSpec
    omega
  · unfold yearNumberSpec
    omega
  · unfold yearNumberSpec prevMonday weekday
    omega
  · unfold yearNumberSpec
    omega
  · unfold yearNumberSpec
    omega
  · unfold yearNumberSpec
    omega
  · intro c
    unfold yearNumberSpec
    omega

/-- C6 witness: the one report generated for the single-day period
2025-01-01 … 2025-01-01 (anchored at Monday 2024-12-30, a negative day
delta) carries apprenticeship year 1 = the clamp formula at its anchor. -/
theorem C6_year_clamp_witness :
    (WeekReport.mk (civil 2024 12 30) 1
        (mkWeek (civil 2024 12 30) (civil 2025 1 1) (civil 2025 1 1) [] 8
          (fun _ => []))
        (weekTotal (civil 2024 12 30) (civil 2025 1 1) (civil 2025 1 1) [] 8
          (fun _ => []))).year
      = yearNumberSpec (civil 2024 12 30) (civil 2025 1 1) :=
  (C6_year_clamp (civil 2025 1 1) (civil 2025 1 1) [] [] 8
    (fun _ _ => [])).1 _ (by decide)

/-- C7: the code does not fail fast on configuration-invariant violations.
With start 2025-01-15 > end 2025-01-01 the anchor loop runs zero times, so
the sequencer silently returns the empty report sequence (the script then
prints a success message); and for an empty task list the random sample has
no possible outcome at all (`random.randint(1, 0)` raises a generic
`ValueError`, not a distinguished configuration error). -/
theorem C7_silent_degradation :
    anchors (civil 2025 1 15) (civil 2025 1 1) = [] ∧
    generateAllReports (civil 2025 1 15) (civil 2025 1 1) [] [] 8
      (fun _ _ => []) = [] ∧
    ¬(∃ draw : List String, PossibleDraw [] draw) := by
  refine ⟨by decide, by decide, ?_⟩
  rintro ⟨draw, h1, h2, -⟩
  simp only [List.length_nil] at h2
  omega

/-- C8 counterexample: the end-to-end period 2025-01-01 … 2025-01-07 does not
produce a single week: the anchor sequence has the two Mondays 2024-12-30 and
2025-01-06 (the latter is still ≤ the period end). -/
theorem C8_week_count_counterexample :
    anchors (civil 2025 1 1) (civil 2025 1 7) =
      [civil 2024 12 30, civil 2025 1 6] ∧
    (anchors (civil 2025 1 1) (civil 2025 1 7)).length ≠ 1 := by
  refine ⟨by decide, by decide⟩

/-- C8 (amended): for every generated week the reported total equals the sum
of its seven days' hour values; in the end-to-end scenario (period 2025-01-01
… 2025-01-07, defaultHours = 8, one special day 2025-01-03 "Schule", no
holidays) the code produces two weeks, whose totals are 24 (anchor
2024-12-30) and 16 (anchor 2025-01-06), for every possible random draw. -/
theorem C8_weekly_totals (gstart gend : Int)
    (special hols : List (Int × String)) (dh : Nat)
    (draws : Int → Nat → List String) :
    (∀ r ∈ generateAllReports gstart gend special hols dh draws,
        r.total = (r.week.map DayRecord.hours).sum) ∧
    (∀ dr : Int → Nat → List String,
      (generateAllReports (civil 2025 1 1) (civil 2025 1 7)
          [(civil 2025 1 3, "Schule")] [] 8 dr).map WeekReport.total =
        [24, 16]) := by
  constructor
  · intro r hr
    simp only [generateAllReports, List.mem_map] at hr
    obtain ⟨cur, _, rfl⟩ := hr
    exact weekTotal_eq_sum _ _ _ _ _ _
  · intro dr
    simp only [generateAllReports]
    rw [show anchors (civil 2025 1 1) (civil 2025 1 7) =
        [civil 2024 12 30, civil 2025 1 6] from by decide]
    simp only [List.map_cons, List.map_nil]
    rw [weekTotal_draw_irrelevant (civil 2024 12 30) (civil 2025 1 1)
        (civil 2025 1 7) _ 8 (dr (civil 2024 12 30)) (fun _ => []),
      weekTotal_draw_irrelevant (civil 2025 1 6) (civil 2025 1 1)
        (civil 2025 1 7) _ 8 (dr (civil 2025 1 6)) (fun _ => [])]
    decide

/-- C8 witness: both parts instantiated — the first generated report of the
scenario satisfies total = sum of day hours, and the totals of the scenario
are [24, 16]. -/
theorem C8_weekly_totals_witness :
    (generateAllReports (civil 2025 1 1) (civil 2025 1 7)
        [(civil 2025 1 3, "Schule")] [] 8 (fun _ _ => [])).map
      WeekReport.total = [24, 16] :=
  (C8_weekly_totals 0 0 [] [] 0 (fun _ _ => [])).2 (fun _ _ => [])

/-- C9 counterexample: with the task list ["a", "a"] (a duplicated task
string), drawing both positions is a possible outcome of
`random.sample(tasks, 2)`, and the resulting workday content ["a", "a"] has a
duplicate within the day, contradicting the claimed distinctness. -/
theorem C9_duplicate_draw_counterexample :
    PossibleDraw ["a", "a"] ["a", "a"] ∧
    (classifyDay (civil 2025 1 2) (civil 2025 1 1) (civil 2025 1 7) [] 8
        ["a", "a"]).entry = ["a", "a"] ∧
    ¬(["a", "a"] : List String).Nodup := by
  refine ⟨⟨by decide, by decide, List.Subperm.refl _⟩, by decide, by decide⟩

/-- C9 (amended): for every in-range weekday that is neither special nor a
holiday, every possible random draw yields content = the drawn sample — k
entries of the year's task list with 1 ≤ k ≤ min(3, list length), drawn from
distinct positions (hence pairwise distinct whenever the task list has no
duplicate strings) — and hours = defaultHours. -/
theorem C9_workday_sample (date gstart gend : Int)
    (special : List (Int × String)) (dh : Nat) (tasks draw : List String)
    (h1 : gstart ≤ date) (h2 : date ≤ gend) (h3 : weekday date < 5)
    (hs : List.lookup date special = none) (hne : tasks ≠ [])
    (hp : PossibleDraw tasks draw) :
    classifyDay date gstart gend special dh draw = ⟨draw, dh⟩ ∧
    1 ≤ draw.length ∧ draw.length ≤ min 3 tasks.length ∧
    draw ⊆ tasks ∧ (tasks.Nodup → draw.Nodup) := by
  obtain ⟨hk1, hk2, hsp⟩ := hp
  refine ⟨classifyDay_workday date gstart gend special dh draw h1 h2 h3 hs,
    hk1, hk2, hsp.subset, ?_⟩
  intro hn
  obtain ⟨l, hpm, hsl⟩ := hsp
  exact hpm.nodup (hsl.nodup hn)

/-- C9 witness: Thursday 2025-01-02 with task list ["a", "b", "c"] and the
possible draw ["b", "a"] (two distinct positions) gives that sample as
content with 8 hours. -/
theorem C9_workday_sample_witness :
    classifyDay (civil 2025 1 2) (civil 2025 1 1) (civil 2025 1 7) [] 8
        ["b", "a"] = ⟨["b", "a"], 8⟩ ∧
    (["b", "a"] : List String) ⊆ ["a", "b", "c"] :=
  ⟨(C9_workday_sample (civil 2025 1 2) (civil 2025 1 1) (civil 2025 1 7)
      [] 8 ["a", "b", "c"] ["b", "a"] (by decide) (by decide) (by decide)
      (by decide) (by decide)
      ⟨by decide, by decide, ⟨["a", "b"], by decide, by decide⟩⟩).1,
    (C9_workday_sample (civil 2025 1 2) (civil 2025 1 1) (civil 2025 1 7)
      [] 8 ["a", "b", "c"] ["b", "a"] (by decide) (by decide) (by decide)
      (by decide) (by decide)
      ⟨by decide, by decide, ⟨["a", "b"], by decide, by decide⟩⟩).2.2.2.1⟩

/-- C10: in every generated week, every day's hour value is 0 or exactly
defaultHours for every possible random draw, and the weekly total is at most
5 · defaultHours (the two weekend slots of the Monday-anchored week always
contribute 0). -/
theorem C10_hours_invariant (gstart gend : Int)
    (special hols : List (Int × String)) (dh : Nat)
    (draws : Int → Nat → List String) (r : WeekReport)
    (hr : r ∈ generateAllReports gstart gend special hols dh draws) :
    (∀ day ∈ r.week, day.hours = 0 ∨ day.hours = dh) ∧
    r.total ≤ 5 * dh := by
  simp only [generateAllReports, List.mem_map] at hr
  obtain ⟨cur, hcur, rfl⟩ := hr
  constructor
  · intro day hday
    obtain ⟨i, _, rfl⟩ := mem_mkWeek _ _ _ _ _ _ _ hday
    exact classifyDay_hours_zero_or_default _ _ _ _ _ _
  · exact weekTotal_le _ _ _ _ _ _ (anchors_weekday gstart gend cur hcur)

/-- C10 witness: the single report of the period 2025-01-01 … 2025-01-01 has
weekly total ≤ 5 · 8. -/
theorem C10_hours_invariant_witness :
    (WeekReport.mk (civil 2024 12 30) 1
        (mkWeek (civil 2024 12 30) (civil 2025 1 1) (civil 2025 1 1) [] 8
          (fun _ => []))
        (weekTotal (civil 2024 12 30) (civil 2025 1 1) (civil 2025 1 1) [] 8
          (fun _ => []))).total ≤ 5 * 8 :=
  (C10_hours_invariant (civil 2025 1 1) (civil 2025 1 1) [] [] 8
    (fun _ _ => [])
    (WeekReport.mk (civil 2024 12 30) 1
      (mkWeek (civil 2024 12 30) (civil 2025 1 1) (civil 2025 1 1) [] 8
        (fun _ => []))
      (weekTotal (civil 2024 12 30) (civil 2025 1 1) (civil 2025 1 1) [] 8
        (fun _ => []))) (by decide)).2

end Nachweis
